import Mathlib

/-!
Shallow embedding of `src/pam_yubico.py` (a Python PAM module for Yubikey
OTP authentication).  Python strings are modelled as `List Char` so that all
operations are structurally recursive and evaluate inside the kernel;
`"...".data` injects a concrete literal.  I/O boundaries are modelled as
explicit inputs: the contents of the mapping files are passed as a list of
line lists, the body of the HTTP verification response is passed as a
string, and the OTP obtained from the PAM conversation is a parameter.
Python exceptions that can escape the code are modelled with `Except`.
-/

-- Decidable equality for `Except`, needed to evaluate closed runs of the
-- model with `decide`.
deriving instance DecidableEq for Except

/-- Python strings, modelled as lists of characters. -/
abbrev Str := List Char

/-- Python exceptions that the embedded code can raise (and that the
source's `except KeyError` handlers do NOT catch). -/
inductive PyError where
  | indexError
  | valueError
deriving DecidableEq

/-- Whitespace characters stripped by Python's `str.strip()`:
space, tab, newline, carriage return, vertical tab, form feed. -/
def isPySpace (c : Char) : Bool :=
  c == ' ' || c == '\t' || c == '\n' || c == '\r' ||
  c == Char.ofNat 11 || c == Char.ofNat 12

/-- Python `s.strip()`: remove leading and trailing whitespace. -/
def pyStrip (s : Str) : Str :=
  ((s.dropWhile isPySpace).reverse.dropWhile isPySpace).reverse

/-- Whether the list `s` starts with the list `p`. -/
def startsWithList : Str → Str → Bool
  | _, [] => true
  | [], _ :: _ => false
  | c :: cs, d :: ds => c == d && startsWithList cs ds

/-- Worker for `pySplit`.  `fuel` only bounds the recursion: every step
consumes at least one character of `s`, so with initial fuel
`s.length + 1` the fuel-exhausted branch is unreachable and the function
computes exactly Python's `s.split(sep)` for non-empty `sep`. -/
def pySplitAux (sep : Str) : Nat → Str → Str → List Str
  | _, [], cur => [cur.reverse]
  | 0, s, cur => [cur.reverse ++ s]
  | fuel + 1, c :: rest, cur =>
    if startsWithList (c :: rest) sep then
      cur.reverse :: pySplitAux sep fuel (rest.drop (sep.length - 1)) []
    else
      pySplitAux sep fuel rest (c :: cur)

/-- Python `s.split(sep)` for a non-empty separator `sep`: non-overlapping
left-to-right splitting, keeping empty fields (`''.split(':') == ['']`). -/
def pySplit (sep s : Str) : List Str :=
  pySplitAux sep (s.length + 1) s []

/-- Value of a decimal digit list, most significant first. -/
def digitsToNat (ds : Str) : Nat :=
  ds.foldl (fun n c => 10 * n + (c.toNat - '0'.toNat)) 0

/-- Python `int(value)` on a string: strip whitespace, optional sign, then a
non-empty run of decimal digits; anything else raises `ValueError`
(modelled as `none`). -/
def pyInt (s : Str) : Option Int :=
  match pyStrip s with
  | '-' :: ds =>
    if ds ≠ [] ∧ ds.all Char.isDigit then some (-(digitsToNat ds : Int)) else none
  | '+' :: ds =>
    if ds ≠ [] ∧ ds.all Char.isDigit then some (digitsToNat ds : Int) else none
  | ds =>
    if ds ≠ [] ∧ ds.all Char.isDigit then some (digitsToNat ds : Int) else none

/-- Constant `API_URL` from the source. -/
def API_URL : Str := "https://api.yubico.com/wsapi/verify?id=%s&otp=%s".data

/-- Constant `CLIENT_ID_LENGTH = 12` from the source. -/
def CLIENT_ID_LENGTH : Nat := 12

/-- Constant `TOKEN_LENGTH = 44` from the source. -/
def TOKEN_LENGTH : Nat := 44

/-- Value stored under the `debug` key of the arguments dictionary.  It
starts as the Python boolean `False`, may be set to `True` by the
membership check on the argument list, and may be overwritten with a raw
string by a `debug=<value>` directive in the directive loop. -/
inductive DebugValue where
  | bool (b : Bool)
  | str (s : Str)
deriving DecidableEq

/-- The arguments dictionary built by `_parse_arguments`, with one field per
key of the source's `arguments` dict.  `loggingDisabled` additionally
records whether the `logging.disable(logging.FATAL)` side effect ran
(which is what actually suppresses the module's diagnostic output). -/
structure Arguments where
  id : Int
  debug : DebugValue
  alwaysok : Int
  authfile : Option Str
  url : Str
  loggingDisabled : Bool
deriving DecidableEq

/-- Defaults of the `arguments` dict in `_parse_arguments`. -/
def defaultArguments : Arguments :=
  { id := -1, debug := .bool false, alwaysok := 0, authfile := none,
    url := API_URL, loggingDisabled := false }

/-- One iteration of the directive loop in `_parse_arguments`: a directive
whose split on `=` does not have exactly two fields is skipped; a
recognized key is assigned, with `int()` conversion (which can raise
`ValueError`) for `id` and `alwaysok`; an unrecognized key is ignored. -/
def applyDirective (arguments : Arguments) (argument : Str) : Except PyError Arguments :=
  match pySplit "=".data argument with
  | [key, value] =>
    if key = "id".data then
      match pyInt value with
      | none => .error .valueError
      | some n => .ok { arguments with id := n }
    else if key = "debug".data then
      .ok { arguments with debug := .str value }
    else if key = "alwaysok".data then
      match pyInt value with
      | none => .error .valueError
      | some n => .ok { arguments with alwaysok := n }
    else if key = "authfile".data then
      .ok { arguments with authfile := some value }
    else if key = "url".data then
      .ok { arguments with url := value }
    else
      .ok arguments
  | _ => .ok arguments

/-- The directive loop of `_parse_arguments`, left to right; an uncaught
`ValueError` aborts the whole call. -/
def processArguments (a : Arguments) : List Str → Except PyError Arguments
  | [] => .ok a
  | arg :: rest =>
    match applyDirective a arg with
    | .error e => .error e
    | .ok a2 => processArguments a2 rest

/-- Embedding of `_parse_arguments(args)`.  When `args` is empty (falsy in
Python) the whole body is skipped and the defaults are returned — note
that `logging.disable` is then NOT called.  Otherwise, `debug` is enabled
only when the exact string `debug` is an element of the list (`'debug' in
args` is list membership, not substring search); with no such element,
logging is disabled.  Then every directive is processed in order. -/
def parse_arguments (args : List Str) : Except PyError Arguments :=
  if args = [] then .ok defaultArguments
  else
    let a0 :=
      if args.contains "debug".data then
        { defaultArguments with debug := .bool true }
      else
        { defaultArguments with loggingDisabled := true }
    processArguments a0 args

/-- Python dict assignment `m[k] = v` on an association list: overwrite the
existing entry for `k`, or append a new one. -/
def dictSet (m : List (Str × Str)) (k v : Str) : List (Str × Str) :=
  if m.any (fun p => p.1 == k) then
    m.map (fun p => if p.1 == k then (k, v) else p)
  else
    m ++ [(k, v)]

/-- Python dict lookup `m.get(k)` on an association list. -/
def dictGet (m : List (Str × Str)) (k : Str) : Option Str :=
  (m.find? (fun p => p.1 == k)).map (fun p => p.2)

/-- The line loop of `_parse_mapping_files` over the lines of one mapping
file.  Each line is stripped and split on `:`; `line_split[1]` on a line
with fewer than two fields raises `IndexError`, which the source's
`except KeyError` clause does NOT catch, so the whole parse aborts.  A
well-formed line whose device id does not have exactly `CLIENT_ID_LENGTH`
characters is skipped; otherwise `mappings[username] = client_id`. -/
def parseMappingLines (m : List (Str × Str)) : List Str → Except PyError (List (Str × Str))
  | [] => .ok m
  | l :: rest =>
    match pySplit ":".data (pyStrip l) with
    | username :: client_id :: _ =>
      if client_id.length ≠ CLIENT_ID_LENGTH then
        parseMappingLines m rest
      else
        parseMappingLines (dictSet m username client_id) rest
    | _ => .error .indexError

/-- The file loop of `_parse_mapping_files`, threading the mappings dict
through the candidate files in order. -/
def parseMappingFilesFrom (m : List (Str × Str)) : List (List Str) → Except PyError (List (Str × Str))
  | [] => .ok m
  | f :: fs =>
    match parseMappingLines m f with
    | .error e => .error e
    | .ok m2 => parseMappingFilesFrom m2 fs

/-- Embedding of `_parse_mapping_files`: the contents of the candidate
mapping files that exist (global file first, then the per-user file) are
passed as a list of line lists; file discovery itself is I/O and out of
the model. -/
def parse_mapping_files (files : List (List Str)) : Except PyError (List (Str × Str)) :=
  parseMappingFilesFrom [] files

/-- Embedding of `_check_otp`, given the verification response body (the
network round trip itself is I/O and out of the model).  The source takes
`response.split('status=')[1]` — the segment between the first and second
occurrences of `status=` — strips it, and compares with `'OK'`; when the
response contains no `status=` at all, the `[1]` raises `IndexError`,
which the `except KeyError` clause does NOT catch. -/
def check_otp (response : Str) : Except PyError Bool :=
  match pySplit "status=".data response with
  | _ :: s :: _ =>
    if pyStrip s = "OK".data then .ok true else .ok false
  | _ => .error .indexError

/-- PAM verdicts returned by `pam_sm_authenticate`. -/
inductive Verdict where
  | PAM_SUCCESS
  | PAM_AUTH_ERR
  | PAM_AUTHINFO_UNAVAIL
deriving DecidableEq

/-- Result of one evaluation of the decision engine: the verdict, how many
times the remote Verification Client was invoked, and whether the
`if not otp` ("No OTP provided") branch fired. -/
structure EvalTrace where
  verdict : Verdict
  verifyCalls : Nat
  emptyBranchHit : Bool
deriving DecidableEq

/-- Embedding of the decision logic of `pam_sm_authenticate`, with the
resolved arguments, the parsed user mappings, the OTP collected by the
PAM conversation, and the verification response body as inputs.  The
source order is kept: unknown user, then `alwaysok == 1` bypass, then
device-id prefix match, then emptiness, then length, then remote
verification via `_check_otp`. -/
def pam_sm_authenticate (arguments : Arguments) (user_mappings : List (Str × Str))
    (user otp response : Str) : Except PyError EvalTrace :=
  match dictGet user_mappings user with
  | none => .ok ⟨.PAM_AUTHINFO_UNAVAIL, 0, false⟩
  | some mapped_id =>
    let client_id := otp.take CLIENT_ID_LENGTH
    if arguments.alwaysok = 1 then
      .ok ⟨.PAM_SUCCESS, 0, false⟩
    else if mapped_id ≠ client_id then
      .ok ⟨.PAM_AUTH_ERR, 0, false⟩
    else if otp = [] then
      .ok ⟨.PAM_AUTH_ERR, 0, true⟩
    else if otp.length ≠ TOKEN_LENGTH then
      .ok ⟨.PAM_AUTH_ERR, 0, false⟩
    else
      match check_otp response with
      | .error e => .error e
      | .ok valid_otp =>
        if !valid_otp then .ok ⟨.PAM_AUTH_ERR, 1, false⟩
        else .ok ⟨.PAM_SUCCESS, 1, false⟩

/-- C1: if `alwaysok` is enabled (the resolved `alwaysok` value equals 1,
the condition the code tests), evaluation for any username with a known
mapping returns `PAM_SUCCESS` for every token and every would-be remote
response, and the Verification Client is invoked zero times. -/
theorem alwaysok_one_bypasses_all_checks (a : Arguments) (m : List (Str × Str))
    (user otp response cid : Str)
    (hmap : dictGet m user = some cid) (hok : a.alwaysok = 1) :
    pam_sm_authenticate a m user otp response = .ok ⟨.PAM_SUCCESS, 0, false⟩ := by
  simp [pam_sm_authenticate, hmap, hok]

/-- Witness for C1 at a concrete input. -/
theorem alwaysok_one_bypasses_all_checks_witness :
    dictGet [("alice".data, "aaaaaaaaaaaa".data)] "alice".data = some "aaaaaaaaaaaa".data ∧
    (Arguments.mk (-1) (.bool false) 1 none API_URL true).alwaysok = 1 ∧
    pam_sm_authenticate (Arguments.mk (-1) (.bool false) 1 none API_URL true)
      [("alice".data, "aaaaaaaaaaaa".data)] "alice".data "zz".data "status=BAD_OTP".data =
      .ok ⟨.PAM_SUCCESS, 0, false⟩ :=
  ⟨by decide, by decide,
    alwaysok_one_bypasses_all_checks (Arguments.mk (-1) (.bool false) 1 none API_URL true)
      [("alice".data, "aaaaaaaaaaaa".data)] "alice".data "zz".data "status=BAD_OTP".data
      "aaaaaaaaaaaa".data (by decide) (by decide)⟩

/-- C3: a username absent from the parsed mappings yields
`PAM_AUTHINFO_UNAVAIL`, for every token, every response and every
configuration (`alwaysok` included), with no Verification Client call. -/
theorem unknown_user_authinfo_unavail (a : Arguments) (m : List (Str × Str))
    (user otp response : Str) (hmap : dictGet m user = none) :
    pam_sm_authenticate a m user otp response = .ok ⟨.PAM_AUTHINFO_UNAVAIL, 0, false⟩ := by
  simp [pam_sm_authenticate, hmap]

/-- Witness for C3 at a concrete input, with `alwaysok` enabled to show the
bypass flag does not override the unknown-user verdict. -/
theorem unknown_user_authinfo_unavail_witness :
    dictGet [("alice".data, "aaaaaaaaaaaa".data)] "bob".data = none ∧
    pam_sm_authenticate (Arguments.mk (-1) (.bool false) 1 none API_URL false)
      [("alice".data, "aaaaaaaaaaaa".data)] "bob".data "zz".data "status=OK".data =
      .ok ⟨.PAM_AUTHINFO_UNAVAIL, 0, false⟩ :=
  ⟨by decide,
    unknown_user_authinfo_unavail (Arguments.mk (-1) (.bool false) 1 none API_URL false)
      [("alice".data, "aaaaaaaaaaaa".data)] "bob".data "zz".data "status=OK".data (by decide)⟩

/-- C4 (code bug): a mapping file whose first line is `bob` (no colon)
makes the parse raise an uncaught `IndexError` at `line_split[1]` — the
`except KeyError` clause does not catch `IndexError` — so the later
well-formed line `alice:aaaaaaaaaaaa` is never resolved, instead of the
malformed line being skipped. -/
theorem mapping_line_without_colon_raises_index_error :
    parse_mapping_files [["bob".data, "alice:aaaaaaaaaaaa".data]] = .error .indexError ∧
    parse_mapping_files [["carol:short".data, "alice:aaaaaaaaaaaa".data]] =
      .ok [("alice".data, "aaaaaaaaaaaa".data)] := by
  constructor <;> decide

/-- C5 (code bug): a verification response with no `status=` field makes
`_check_otp` raise an uncaught `IndexError` at `split('status=')[1]` — the
`except KeyError` clause does not catch `IndexError` — instead of
returning false; responses that do contain `status=` are interpreted as
the claim says. -/
theorem response_without_status_raises_index_error :
    check_otp "foo=bar".data = .error .indexError ∧
    check_otp "status=OK\n".data = .ok true ∧
    check_otp "status=BAD_OTP\nother=x".data = .ok false := by
  refine ⟨by decide, by decide, by decide⟩

/-- C2: with a known mapping and bypass disabled (`alwaysok ≠ 1`), a token
whose 12-character prefix differs from the mapped id, or that is empty,
or whose length is not 44, is rejected with `PAM_AUTH_ERR` and the
Verification Client is invoked zero times, for every would-be response. -/
theorem structural_mismatch_rejected_without_verification (a : Arguments)
    (m : List (Str × Str)) (user otp response cid : Str)
    (hmap : dictGet m user = some cid) (hok : a.alwaysok ≠ 1)
    (hbad : otp.take CLIENT_ID_LENGTH ≠ cid ∨ otp = [] ∨ otp.length ≠ TOKEN_LENGTH) :
    (pam_sm_authenticate a m user otp response).map (fun t => (t.verdict, t.verifyCalls)) =
      .ok (.PAM_AUTH_ERR, 0) := by
  simp only [pam_sm_authenticate, hmap]
  rw [if_neg hok]
  split_ifs with h1 h2 h3
  · rfl
  · rfl
  · rfl
  · exfalso
    rcases hbad with h | h | h
    · exact h1 (Ne.symm h)
    · exact h2 h
    · exact h3 h

/-- Every member of `dictSet m k v` is a member of `m` or is `(k, v)`. -/
theorem mem_dictSet {m : List (Str × Str)} {k v : Str} {p : Str × Str}
    (hp : p ∈ dictSet m k v) : p ∈ m ∨ p = (k, v) := by
  unfold dictSet at hp
  split at hp
  · obtain ⟨q, hq, hqe⟩ := List.mem_map.mp hp
    by_cases hqk : (q.1 == k) = true
    · right; rw [if_pos hqk] at hqe; exact hqe.symm
    · left; rw [if_neg hqk] at hqe; exact hqe ▸ hq
  · rcases List.mem_append.mp hp with h | h
    · left; exact h
    · right; simpa using h

/-- A successful `dictGet` value comes from a member of the list. -/
theorem dictGet_mem {m : List (Str × Str)} {k v : Str}
    (h : dictGet m k = some v) : ∃ p, p ∈ m ∧ p.2 = v := by
  unfold dictGet at h
  cases hf : m.find? (fun p => p.1 == k) with
  | none => rw [hf] at h; simp at h
  | some p =>
    rw [hf] at h
    simp at h
    exact ⟨p, List.mem_of_find?_eq_some hf, h⟩

/-- The line loop only ever stores device ids of length `CLIENT_ID_LENGTH`. -/
theorem parseMappingLines_values :
    ∀ (lines : List Str) (m m2 : List (Str × Str)),
      parseMappingLines m lines = .ok m2 →
      (∀ p ∈ m, p.2.length = CLIENT_ID_LENGTH) →
      ∀ p ∈ m2, p.2.length = CLIENT_ID_LENGTH := by
  intro lines
  induction lines with
  | nil =>
    intro m m2 h hm
    exact (Except.ok.inj h) ▸ hm
  | cons l rest ih =>
    intro m m2 h hm
    simp only [parseMappingLines] at h
    cases hsp : pySplit ":".data (pyStrip l) with
    | nil => simp [hsp] at h
    | cons username tl =>
      cases tl with
      | nil => simp [hsp] at h
      | cons cid tl2 =>
        simp only [hsp] at h
        by_cases hlen : cid.length ≠ CLIENT_ID_LENGTH
        · rw [if_pos hlen] at h
          exact ih _ _ h hm
        · rw [if_neg hlen] at h
          refine ih _ _ h ?_
          intro p hp
          rcases mem_dictSet hp with hpm | hpe
          · exact hm p hpm
          · rw [hpe]
            exact not_not.mp hlen

/-- The file loop only ever stores device ids of length `CLIENT_ID_LENGTH`. -/
theorem parseMappingFilesFrom_values :
    ∀ (files : List (List Str)) (m m2 : List (Str × Str)),
      parseMappingFilesFrom m files = .ok m2 →
      (∀ p ∈ m, p.2.length = CLIENT_ID_LENGTH) →
      ∀ p ∈ m2, p.2.length = CLIENT_ID_LENGTH := by
  intro files
  induction files with
  | nil =>
    intro m m2 h hm
    exact (Except.ok.inj h) ▸ hm
  | cons f fs ih =>
    intro m m2 h hm
    simp only [parseMappingFilesFrom] at h
    cases hl : parseMappingLines m f with
    | error e => rw [hl] at h; simp at h
    | ok mf =>
      rw [hl] at h
      exact ih _ _ h (parseMappingLines_values f m mf hl hm)

/-- Every device id stored by `_parse_mapping_files` has exactly
`CLIENT_ID_LENGTH` characters. -/
theorem parse_mapping_files_values {files : List (List Str)} {m : List (Str × Str)}
    (h : parse_mapping_files files = .ok m) :
    ∀ p ∈ m, p.2.length = CLIENT_ID_LENGTH :=
  parseMappingFilesFrom_values files [] m h (by simp)

/-- Witness for C2 at a concrete input (prefix mismatch case). -/
theorem structural_mismatch_rejected_without_verification_witness :
    dictGet [("alice".data, "aaaaaaaaaaaa".data)] "alice".data = some "aaaaaaaaaaaa".data ∧
    defaultArguments.alwaysok ≠ 1 ∧
    ("bad".data).take CLIENT_ID_LENGTH ≠ "aaaaaaaaaaaa".data ∧
    (pam_sm_authenticate defaultArguments [("alice".data, "aaaaaaaaaaaa".data)]
        "alice".data "bad".data "status=OK".data).map (fun t => (t.verdict, t.verifyCalls)) =
      .ok (.PAM_AUTH_ERR, 0) :=
  ⟨by decide, by decide, by decide,
    structural_mismatch_rejected_without_verification defaultArguments
      [("alice".data, "aaaaaaaaaaaa".data)] "alice".data "bad".data "status=OK".data
      "aaaaaaaaaaaa".data (by decide) (by decide) (Or.inl (by decide))⟩

/-- C10: whenever the expected device identifier was obtained from the
Mapping Store (so it has exactly `CLIENT_ID_LENGTH` characters), the
`if not otp` ("No OTP provided") branch of the decision engine never
fires: an empty token already fails the earlier prefix match (or is
accepted earlier by the bypass). -/
theorem empty_otp_branch_unreachable (files : List (List Str)) (a : Arguments)
    (m : List (Str × Str)) (user otp response cid : Str) (t : EvalTrace)
    (hfiles : parse_mapping_files files = .ok m)
    (hmap : dictGet m user = some cid)
    (ht : pam_sm_authenticate a m user otp response = .ok t) :
    t.emptyBranchHit = false := by
  have hlen : cid.length = CLIENT_ID_LENGTH := by
    obtain ⟨p, hp, hv⟩ := dictGet_mem hmap
    exact hv ▸ parse_mapping_files_values hfiles p hp
  simp only [pam_sm_authenticate, hmap] at ht
  split_ifs at ht with h1 h2 h3 h4
  · exact (Except.ok.inj ht) ▸ rfl
  · exact (Except.ok.inj ht) ▸ rfl
  · exfalso
    have hcid : cid = otp.take CLIENT_ID_LENGTH := not_not.mp h2
    rw [h3] at hcid
    simp at hcid
    rw [hcid] at hlen
    simp [CLIENT_ID_LENGTH] at hlen
  · exact (Except.ok.inj ht) ▸ rfl
  · cases hc : check_otp response with
    | error e => simp only [hc] at ht; simp at ht
    | ok v =>
      simp only [hc] at ht
      split at ht
      · exact (Except.ok.inj ht) ▸ rfl
      · exact (Except.ok.inj ht) ▸ rfl

/-- Witness for C10 at a concrete input: a store-derived mapping, an empty
token, and the resulting trace in which the empty-token branch did not
fire (the prefix check already rejected). -/
theorem empty_otp_branch_unreachable_witness :
    parse_mapping_files [["alice:aaaaaaaaaaaa".data]] =
      .ok [("alice".data, "aaaaaaaaaaaa".data)] ∧
    dictGet [("alice".data, "aaaaaaaaaaaa".data)] "alice".data = some "aaaaaaaaaaaa".data ∧
    pam_sm_authenticate defaultArguments [("alice".data, "aaaaaaaaaaaa".data)]
      "alice".data [] "status=OK".data = .ok ⟨.PAM_AUTH_ERR, 0, false⟩ ∧
    (EvalTrace.mk .PAM_AUTH_ERR 0 false).emptyBranchHit = false :=
  ⟨by decide, by decide, by decide,
    empty_otp_branch_unreachable [["alice:aaaaaaaaaaaa".data]] defaultArguments
      [("alice".data, "aaaaaaaaaaaa".data)] "alice".data [] "status=OK".data
      "aaaaaaaaaaaa".data ⟨.PAM_AUTH_ERR, 0, false⟩ (by decide) (by decide) (by decide)⟩

/-- C6 (counterexample): the directive `id=abc` is of the shape `key=value`
with the recognized key `id`, so `_parse_arguments` calls `int('abc')`,
which raises an uncaught `ValueError` — directive parsing CAN signal an
error. -/
theorem nonint_id_directive_raises_value_error :
    parse_arguments ["id=abc".data] = .error .valueError := by decide

/-- A directive is safe for the `int()` conversions of `_parse_arguments`:
either it does not split on `=` into exactly two fields, or its key is
not `id`/`alwaysok`, or its value parses as an integer. -/
def intDirectiveOk (arg : Str) : Bool :=
  match pySplit "=".data arg with
  | [key, value] =>
    if key = "id".data ∨ key = "alwaysok".data then (pyInt value).isSome else true
  | _ => true

/-- A directive that is safe for the `int()` conversions is processed
without raising. -/
theorem applyDirective_ok (a : Arguments) (arg : Str)
    (h : intDirectiveOk arg = true) : ∃ a2, applyDirective a arg = .ok a2 := by
  unfold intDirectiveOk at h
  unfold applyDirective
  cases hsp : pySplit "=".data arg with
  | nil => simp
  | cons key tl =>
    cases tl with
    | nil => simp
    | cons value tl2 =>
      cases tl2 with
      | cons x xs => simp
      | nil =>
        simp only [hsp] at h
        simp only []
        by_cases hid : key = "id".data
        · rw [if_pos (Or.inl hid)] at h
          rw [if_pos hid]
          cases hpi : pyInt value with
          | none => rw [hpi] at h; simp at h
          | some n => simp only [hpi]; exact ⟨_, rfl⟩
        · by_cases hdb : key = "debug".data
          · rw [if_neg hid, if_pos hdb]; exact ⟨_, rfl⟩
          · by_cases hak : key = "alwaysok".data
            · rw [if_pos (Or.inr hak)] at h
              rw [if_neg hid, if_neg hdb, if_pos hak]
              cases hpi : pyInt value with
              | none => rw [hpi] at h; simp at h
              | some n => simp only [hpi]; exact ⟨_, rfl⟩
            · rw [if_neg hid, if_neg hdb, if_neg hak]
              by_cases haf : key = "authfile".data
              · rw [if_pos haf]; exact ⟨_, rfl⟩
              · by_cases hu : key = "url".data
                · rw [if_neg haf, if_pos hu]; exact ⟨_, rfl⟩
                · rw [if_neg haf, if_neg hu]; exact ⟨_, rfl⟩

/-- The directive loop succeeds on any list of safe directives. -/
theorem processArguments_ok :
    ∀ (args : List Str), ∀ (a : Arguments),
      (∀ arg ∈ args, intDirectiveOk arg = true) →
      ∃ a2, processArguments a args = .ok a2 := by
  intro args
  induction args with
  | nil => intro a _; exact ⟨a, rfl⟩
  | cons arg rest ih =>
    intro a h
    obtain ⟨a2, ha2⟩ := applyDirective_ok a arg (h arg (by simp))
    obtain ⟨a3, ha3⟩ := ih a2 (fun x hx => h x (by simp [hx]))
    exact ⟨a3, by simp only [processArguments, ha2]; exact ha3⟩

/-- C6 (amended): directive parsing never raises as long as every directive
of the exact shape `key=value` whose key is `id` or `alwaysok` carries an
integer-parsable value; all other malformed or unrecognized directives
(wrong shape, unknown key) are ignored without error.  (As the
counterexample shows, a non-integer value for `id` or `alwaysok` raises
an uncaught `ValueError`.) -/
theorem parse_arguments_total_on_int_safe_directives (args : List Str)
    (h : ∀ arg ∈ args, intDirectiveOk arg = true) :
    ∃ a, parse_arguments args = .ok a := by
  unfold parse_arguments
  by_cases he : args = []
  · rw [if_pos he]; exact ⟨_, rfl⟩
  · rw [if_neg he]
    exact processArguments_ok args _ h

/-- Witness for the amended C6 at a concrete directive list with a
malformed directive, an unknown key and a wrong-shape directive. -/
theorem parse_arguments_total_on_int_safe_directives_witness :
    (∀ arg ∈ ["garbage".data, "id=7".data, "flag=x=y".data], intDirectiveOk arg = true) ∧
    ∃ a, parse_arguments ["garbage".data, "id=7".data, "flag=x=y".data] = .ok a :=
  ⟨by decide,
    parse_arguments_total_on_int_safe_directives
      ["garbage".data, "id=7".data, "flag=x=y".data] (by decide)⟩

/-- C7 (counterexample): in the directive list of the claim, the value of
the `url` directive itself contains `=` characters, so
`'url=http://x?id=%s&otp=%s'.split('=')` has four fields, not two, and
the directive is skipped: the resolved `url` stays at the default
`API_URL`, not at the template the claim expects. -/
theorem url_directive_with_equals_is_skipped :
    parse_arguments ["id=42".data, "alwaysok=1".data, "url=http://x?id=%s&otp=%s".data] =
      .ok ⟨42, .bool false, 1, none, API_URL, true⟩ ∧
    API_URL ≠ "http://x?id=%s&otp=%s".data := by
  exact ⟨by decide, by decide⟩

/-- C7 (amended): the directive list `id=42, alwaysok=1,
url=http://x?id=%s&otp=%s` resolves to `id = 42` and `alwaysok = 1`
(bypass enabled), while the `url` directive is skipped — its value
contains `=`, so the directive does not split into exactly two fields —
leaving the verification URL template at the default `API_URL`; appending
the malformed directive `garbage` leaves all resolved values unchanged. -/
theorem directive_list_resolves_id_alwaysok_and_skips_url :
    parse_arguments ["id=42".data, "alwaysok=1".data, "url=http://x?id=%s&otp=%s".data] =
      .ok ⟨42, .bool false, 1, none, API_URL, true⟩ ∧
    parse_arguments
        ["id=42".data, "alwaysok=1".data, "url=http://x?id=%s&otp=%s".data, "garbage".data] =
      .ok ⟨42, .bool false, 1, none, API_URL, true⟩ := by
  exact ⟨by decide, by decide⟩

/-- C8 (counterexample): the directive `alwaysok=2` parses to the nonzero
integer 2, yet bypass mode is NOT enabled — the code tests
`arguments['alwaysok'] == 1` — so a user with a known mapping and a
mismatching token gets `PAM_AUTH_ERR`, not `PAM_SUCCESS`. -/
theorem alwaysok_two_does_not_bypass :
    (parse_arguments ["alwaysok=2".data]).map (fun a => a.alwaysok) = .ok 2 ∧
    (parse_arguments ["alwaysok=2".data]).bind
        (fun a => pam_sm_authenticate a [("alice".data, "aaaaaaaaaaaa".data)]
          "alice".data "x".data "status=OK".data) =
      .ok ⟨.PAM_AUTH_ERR, 0, false⟩ := by
  exact ⟨by decide, by decide⟩

/-- C8 (amended): bypass mode is enabled exactly when the resolved
`alwaysok` equals the integer 1: with `alwaysok = 1`, any user with a
known mapping gets `PAM_SUCCESS` regardless of the token; with any other
value (other nonzero integers included), the bypass is not taken and a
mismatching token prefix yields `PAM_AUTH_ERR`. -/
theorem bypass_iff_alwaysok_exactly_one (a : Arguments) (m : List (Str × Str))
    (user otp response cid : Str) (hmap : dictGet m user = some cid) :
    (a.alwaysok = 1 →
      pam_sm_authenticate a m user otp response = .ok ⟨.PAM_SUCCESS, 0, false⟩) ∧
    (a.alwaysok ≠ 1 → cid ≠ otp.take CLIENT_ID_LENGTH →
      pam_sm_authenticate a m user otp response = .ok ⟨.PAM_AUTH_ERR, 0, false⟩) := by
  constructor
  · intro hok
    simp [pam_sm_authenticate, hmap, hok]
  · intro hok hne
    simp only [pam_sm_authenticate, hmap]
    rw [if_neg hok, if_pos hne]

/-- Witness for the amended C8, applying its non-bypass half at the
resolved configuration of `alwaysok=2`. -/
theorem bypass_iff_alwaysok_exactly_one_witness :
    dictGet [("alice".data, "aaaaaaaaaaaa".data)] "alice".data = some "aaaaaaaaaaaa".data ∧
    (Arguments.mk (-1) (.bool false) 2 none API_URL true).alwaysok ≠ 1 ∧
    "aaaaaaaaaaaa".data ≠ ("x".data).take CLIENT_ID_LENGTH ∧
    pam_sm_authenticate (Arguments.mk (-1) (.bool false) 2 none API_URL true)
      [("alice".data, "aaaaaaaaaaaa".data)] "alice".data "x".data "status=OK".data =
      .ok ⟨.PAM_AUTH_ERR, 0, false⟩ :=
  ⟨by decide, by decide, by decide,
    (bypass_iff_alwaysok_exactly_one (Arguments.mk (-1) (.bool false) 2 none API_URL true)
      [("alice".data, "aaaaaaaaaaaa".data)] "alice".data "x".data "status=OK".data
      "aaaaaaaaaaaa".data (by decide)).2 (by decide) (by decide)⟩

/-- C9 (counterexample): the directive `debug=1` does NOT enable diagnostic
output — `'debug' in args` is exact list membership, so with only
`debug=1` present `logging.disable` runs (`loggingDisabled = true`) and
the loop merely stores the string `1` in the record — and with an empty
directive list, diagnostic output stays enabled (`logging.disable` is
never reached) although no `debug` directive is present. -/
theorem debug_value_directive_disables_logging :
    parse_arguments ["debug=1".data] =
      .ok ⟨-1, .str "1".data, 0, none, API_URL, true⟩ ∧
    parse_arguments [] = .ok ⟨-1, .bool false, 0, none, API_URL, false⟩ := by
  exact ⟨by decide, by decide⟩

/-- The directive loop never touches the `loggingDisabled` flag. -/
theorem applyDirective_loggingDisabled (a : Arguments) (arg : Str) (a2 : Arguments)
    (h : applyDirective a arg = .ok a2) : a2.loggingDisabled = a.loggingDisabled := by
  unfold applyDirective at h
  split at h
  · split_ifs at h
    · split at h
      · exact Except.noConfusion h
      · exact (Except.ok.inj h) ▸ rfl
    · exact (Except.ok.inj h) ▸ rfl
    · split at h
      · exact Except.noConfusion h
      · exact (Except.ok.inj h) ▸ rfl
    · exact (Except.ok.inj h) ▸ rfl
    · exact (Except.ok.inj h) ▸ rfl
    · exact (Except.ok.inj h) ▸ rfl
  · exact (Except.ok.inj h) ▸ rfl

/-- The whole directive loop preserves the `loggingDisabled` flag. -/
theorem processArguments_loggingDisabled :
    ∀ (args : List Str) (a a2 : Arguments),
      processArguments a args = .ok a2 → a2.loggingDisabled = a.loggingDisabled := by
  intro args
  induction args with
  | nil =>
    intro a a2 h
    exact (Except.ok.inj h) ▸ rfl
  | cons arg rest ih =>
    intro a a2 h
    simp only [processArguments] at h
    cases hd : applyDirective a arg with
    | error e =>
      simp only [hd] at h
      exact Except.noConfusion h
    | ok amid =>
      simp only [hd] at h
      exact (ih amid a2 h).trans (applyDirective_loggingDisabled a arg amid hd)

/-- C9 (amended): verbose diagnostic output stays enabled iff the directive
list is empty or contains the exact bare string `debug` as an element; a
`debug=<value>` directive does not enable it (it only overwrites the
record's `debug` field with the raw string), and a nonempty list without
the bare `debug` element disables logging. -/
theorem logging_enabled_iff_empty_or_bare_debug (args : List Str) (a : Arguments)
    (h : parse_arguments args = .ok a) :
    a.loggingDisabled = false ↔ (args = [] ∨ args.contains "debug".data = true) := by
  unfold parse_arguments at h
  by_cases he : args = []
  · rw [if_pos he] at h
    have ha : defaultArguments = a := Except.ok.inj h
    constructor
    · intro _; exact Or.inl he
    · intro _; exact ha ▸ rfl
  · rw [if_neg he] at h
    by_cases hc : args.contains "debug".data = true
    · rw [if_pos hc] at h
      have hl := processArguments_loggingDisabled args _ a h
      constructor
      · intro _; exact Or.inr hc
      · intro _; exact hl
    · rw [if_neg hc] at h
      have hl := processArguments_loggingDisabled args _ a h
      constructor
      · intro hf
        rw [hl] at hf
        exact absurd hf (by simp)
      · intro hor
        rcases hor with h1 | h1
        · exact absurd h1 he
        · exact absurd h1 hc

/-- Witness for the amended C9 at the concrete list containing the bare
`debug` directive. -/
theorem logging_enabled_iff_empty_or_bare_debug_witness :
    parse_arguments ["debug".data] = .ok ⟨-1, .bool true, 0, none, API_URL, false⟩ ∧
    ((Arguments.mk (-1) (.bool true) 0 none API_URL false).loggingDisabled = false ↔
      (["debug".data] = [] ∨ ["debug".data].contains "debug".data = true)) :=
  ⟨by decide,
    logging_enabled_iff_empty_or_bare_debug ["debug".data]
      (Arguments.mk (-1) (.bool true) 0 none API_URL false) (by decide)⟩
